import Mathlib

/-!
Verification of the farstream multicast-video example (`src/example.py`)
against its design specification.

The repository ships one Python script driving the farstream library: it
builds a conference with an identity (`sdes`), a video session, a
participant and a stream, selects the multicast transmitter, supplies a
remote codec list and forced multicast candidates, and wires every
remotely arriving source pad into a lazily created `funnel -> xvimagesink`
pair guarded by a captured `funnel` flag.

The `_src_pad_added` handler and the candidate copy/override sequence are
embedded directly from `src/example.py`.  The farstream library functions
the script calls (`set_transmitter`, `set_remote_codecs`,
`force_remote_candidates`, `Candidate.copy`, `GstStructure.set_value`,
conference setup and start) are not part of the shipped sources, so they
are modelled from the specification, each marked `Modelled from the spec:`
in its doc comment.
-/

namespace FarstreamSpec

/-! ## Value types: media, components, candidates, codecs -/

/-- Media types (the example uses `farstream.MEDIA_TYPE_VIDEO`). -/
inductive MediaType where
  | VIDEO
  | AUDIO
deriving DecidableEq, Inhabited

/-- Stream directions (the example uses `farstream.DIRECTION_BOTH`). -/
inductive Direction where
  | SEND
  | RECV
  | BOTH
deriving DecidableEq, Inhabited

/-- Transport components (`farstream.COMPONENT_RTP`, `farstream.COMPONENT_RTCP`). -/
inductive Component where
  | RTP
  | RTCP
deriving DecidableEq, Inhabited

/-- Network protocols (`farstream.NETWORK_PROTOCOL_UDP`, `..._TCP`). -/
inductive NetworkProtocol where
  | UDP
  | TCP
deriving DecidableEq, Inhabited

/-- Candidate types (`farstream.CANDIDATE_TYPE_MULTICAST` and friends). -/
inductive CandidateType where
  | HOST
  | MULTICAST
  | RELAY
deriving DecidableEq, Inhabited

/-- A transport candidate, with the fields the example sets on
`farstream.Candidate()` (`src/example.py` lines 21-27): ip, port,
component_id, proto, type, ttl. -/
structure Candidate where
  ip : String
  port : Nat
  component_id : Component
  proto : NetworkProtocol
  type : CandidateType
  ttl : Nat
deriving DecidableEq, Inhabited

/-- A codec as constructed in the example
(`farstream.Codec(96, "H263-1998", farstream.MEDIA_TYPE_VIDEO, 90000)`). -/
structure Codec where
  payloadType : Nat
  encodingName : String
  mediaType : MediaType
  clockRate : Nat
deriving DecidableEq, Inhabited

/-! ## Candidate object heap: copy and field override

Python candidates are heap objects mutated by attribute assignment
(`candidate.port = 3442`).  To state that `copy()` yields an independent
object we model a small heap of candidate objects addressed by index, a
copy operation and per-field assignment. -/

/-- A heap of candidate objects; an object reference is an index. -/
abbrev CandHeap := List Candidate

/-- Modelled from the spec: `copy()` yields an independent value
(an immutable value; overriding a field on the copy never mutates the
source).  The copy is a fresh object appended to the heap, holding the
same field values; the returned reference is the fresh index.  A dangling
reference copies nothing. -/
def copyCandidate (h : CandHeap) (r : Nat) : CandHeap × Nat :=
  match h[r]? with
  | some c => (h ++ [c], h.length)
  | none => (h, r)

/-- One field assignment on a candidate object, as written in the example
(`candidate.port = 3443`, `candidate.component_id = farstream.COMPONENT_RTCP`). -/
inductive FieldUpdate where
  | ip (v : String)
  | port (v : Nat)
  | component_id (v : Component)
  | proto (v : NetworkProtocol)
  | ctype (v : CandidateType)
  | ttl (v : Nat)
deriving DecidableEq

/-- Apply one field assignment to a candidate value. -/
def applyUpdate (c : Candidate) : FieldUpdate → Candidate
  | .ip v => { c with ip := v }
  | .port v => { c with port := v }
  | .component_id v => { c with component_id := v }
  | .proto v => { c with proto := v }
  | .ctype v => { c with type := v }
  | .ttl v => { c with ttl := v }

/-- Attribute assignment on the heap: overwrite one field of the object at
reference `r`, in place. -/
def setField (h : CandHeap) (r : Nat) (u : FieldUpdate) : CandHeap :=
  match h[r]? with
  | some c => h.set r (applyUpdate c u)
  | none => h

/-- The candidate built in `src/example.py` lines 21-27. -/
def exampleCandidate : Candidate :=
  { ip := "224.0.0.110"
    port := 3442
    component_id := .RTP
    proto := .UDP
    type := .MULTICAST
    ttl := 1 }

/-- Heap holding the original candidate object. -/
def exampleHeap : CandHeap := [exampleCandidate]

/-- `candidate2 = candidate.copy()` (`src/example.py` line 29). -/
def exampleCopy : CandHeap × Nat := copyCandidate exampleHeap 0

/-- `candidate2.port = 3443; candidate2.component_id = COMPONENT_RTCP`
(`src/example.py` lines 30-31), applied to the copied object. -/
def exampleHeapFinal : CandHeap :=
  setField (setField exampleCopy.1 exampleCopy.2 (.port 3443))
    exampleCopy.2 (.component_id .RTCP)

/-- The original candidate object after the overrides on the copy. -/
def candidateAfter : Candidate := (exampleHeapFinal.getD 0 default)

/-- The copied-and-overridden candidate object (`candidate2`). -/
def candidate2After : Candidate := (exampleHeapFinal.getD 1 default)

/-! ## The SharedSinkPool reactor (`_src_pad_added`, `src/example.py` lines 38-50)

The handler is guarded by the captured `funnel` flag: on the first
src-pad-added event it creates the funnel and the xvimagesink, adds and
starts both and links them; every event then links the new pad into a
fresh request pad of the funnel (`funnel.get_pad ("sink%d")` allocates a
new input each call).  The specification's normative concurrency model is
a single-threaded dispatcher delivering arrival events serialized, so the
reactor is embedded as a state machine folded over a list of events. -/

/-- One src-pad-added arrival event: the participant's cname and the name
of the new source pad (the handler also prints the codec). -/
structure PadEvent where
  participantCname : String
  padName : String
deriving DecidableEq

/-- The observable state of the shared-sink wiring: whether the funnel was
built, how many times the funnel and the terminal consumer (xvimagesink)
constructions ran, and which event got which funnel input pad. -/
structure PoolState where
  funnelBuilt : Bool
  funnelConstructions : Nat
  sinkConstructions : Nat
  links : List (PadEvent × Nat)
deriving DecidableEq

/-- `funnel = False` before any event (`src/example.py` line 38). -/
def initialPool : PoolState :=
  { funnelBuilt := false
    funnelConstructions := 0
    sinkConstructions := 0
    links := [] }

/-- The `_src_pad_added` handler (`src/example.py` lines 39-50): if the
funnel flag is unset, construct the funnel and the xvimagesink (one
construction each) and set the flag; in every case link the new pad into a
fresh funnel request pad, numbered consecutively. -/
def src_pad_added (s : PoolState) (ev : PadEvent) : PoolState :=
  if s.funnelBuilt then
    { s with links := s.links ++ [(ev, s.links.length)] }
  else
    { funnelBuilt := true
      funnelConstructions := s.funnelConstructions + 1
      sinkConstructions := s.sinkConstructions + 1
      links := s.links ++ [(ev, s.links.length)] }

/-- Deliver a serialized sequence of src-pad-added events to the handler. -/
def runEvents (s : PoolState) (evs : List PadEvent) : PoolState :=
  evs.foldl src_pad_added s

theorem src_pad_added_of_built (s : PoolState) (ev : PadEvent)
    (h : s.funnelBuilt = true) :
    src_pad_added s ev =
      { s with links := s.links ++ [(ev, s.links.length)] } := by
  simp [src_pad_added, h]

theorem runEvents_of_built (evs : List PadEvent) :
    ∀ s : PoolState, s.funnelBuilt = true →
      (runEvents s evs).funnelBuilt = true ∧
      (runEvents s evs).funnelConstructions = s.funnelConstructions ∧
      (runEvents s evs).sinkConstructions = s.sinkConstructions := by
  induction evs with
  | nil => intro s h; exact ⟨h, rfl, rfl⟩
  | cons e t ih =>
      intro s h
      have hstep : src_pad_added s e =
          { s with links := s.links ++ [(e, s.links.length)] } :=
        src_pad_added_of_built s e h
      have hb : (src_pad_added s e).funnelBuilt = true := by
        rw [hstep]; exact h
      have hf : (src_pad_added s e).funnelConstructions =
          s.funnelConstructions := by rw [hstep]
      have hs : (src_pad_added s e).sinkConstructions =
          s.sinkConstructions := by rw [hstep]
      obtain ⟨h1, h2, h3⟩ := ih (src_pad_added s e) hb
      exact ⟨h1, h2.trans hf, h3.trans hs⟩

/-! ## Stream state machine (spec-modelled)

The farstream library implementing `set_transmitter`, `set_remote_codecs`
and `force_remote_candidates` is not among the shipped sources (the
example only calls it), so the Stream state machine is modelled from the
specification.  Each operation returns the resulting stream together with
an optional error; the spec requires setup-call failures to be
synchronous. -/

/-- Stream lifecycle states: INIT, NEGOTIATING, CONNECTED, FAILED. -/
inductive StreamState where
  | INIT
  | NEGOTIATING
  | CONNECTED
  | FAILED
deriving DecidableEq, Inhabited

/-- The error kinds of the design's error-handling section. -/
inductive FsError where
  | NotInitialized
  | DuplicateStream
  | InvalidState
  | InvalidCandidateSet
  | NoCodecMatch
  | LinkFailure
  | TransportUnavailable
deriving DecidableEq, Inhabited

/-- A stream: direction, transmitter kind, local and remote codec lists,
forced remote candidates and lifecycle state. -/
structure Stream where
  direction : Direction
  transmitter : Option String
  localCodecs : List Codec
  remoteCodecs : List Codec
  forcedCandidates : List Candidate
  state : StreamState
deriving DecidableEq, Inhabited

/-- Codec equality for negotiation purposes is (payloadType, encodingName). -/
def codecMatches (a b : Codec) : Bool :=
  a.payloadType == b.payloadType && a.encodingName == b.encodingName

/-- Modelled from the spec: the codec negotiation collaborator picks the
highest-priority remote codec mutually acceptable against the local
capabilities, or reports no match. -/
def negotiate (locals remotes : List Codec) : Option Codec :=
  remotes.find? (fun r => locals.any (fun l => codecMatches l r))

/-- Modelled from the spec: `setTransmitter(kind)` must be called before
codecs or candidates are applied; it fails with `InvalidState` once
negotiation has started or candidates are forced. -/
def set_transmitter (s : Stream) (kind : String) : Stream × Option FsError :=
  if s.state == .INIT && s.forcedCandidates.isEmpty then
    ({ s with transmitter := some kind }, none)
  else
    (s, some .InvalidState)

/-- Modelled from the spec: `setRemoteCodecs(list)` fails with
`NoCodecMatch` if the list is empty or no mutual match exists against the
local capabilities; on success the list is stored and the state becomes
NEGOTIATING. -/
def set_remote_codecs (s : Stream) (cs : List Codec) : Stream × Option FsError :=
  match negotiate s.localCodecs cs with
  | none => (s, some .NoCodecMatch)
  | some _ => ({ s with remoteCodecs := cs, state := .NEGOTIATING }, none)

/-- A candidate list covers all required components when it holds both an
RTP and an RTCP candidate. -/
def componentComplete (cs : List Candidate) : Bool :=
  cs.any (fun c => c.component_id == .RTP) &&
    cs.any (fun c => c.component_id == .RTCP)

/-- Modelled from the spec: `forceRemoteCandidates(list)` fails with
`InvalidCandidateSet` if the list is empty or does not cover all required
components (both RTP and RTCP); on success the transport is fixed
immediately and the state becomes CONNECTED without waiting on
negotiation or discovery. -/
def force_remote_candidates (s : Stream) (cs : List Candidate) :
    Stream × Option FsError :=
  if cs.isEmpty || !componentComplete cs then
    (s, some .InvalidCandidateSet)
  else
    ({ s with forcedCandidates := cs, state := .CONNECTED }, none)

/-! ## Conference aggregate (spec-modelled) -/

/-- Conference lifecycle states. -/
inductive ConfLifecycle where
  | NEW
  | PLAYING
  | STOPPED
deriving DecidableEq, Inhabited

/-- A media track: its media type and its streams (one per participant). -/
structure MediaTrack where
  mediaType : MediaType
  streams : List Stream
deriving DecidableEq, Inhabited

/-- The conference aggregate: whether `create()` ran, the identity
metadata (a key-value mapping such as the `sdes` structure), the tracks,
the participant count and the lifecycle state. -/
structure Conference where
  initialized : Bool
  identity : List (String × String)
  tracks : List MediaTrack
  participants : Nat
  lifecycle : ConfLifecycle
deriving DecidableEq, Inhabited

/-- Modelled from the spec: `addTrack(mediaType)` fails with
`NotInitialized` before `create()`; otherwise it registers a fresh track. -/
def addTrack (c : Conference) (mt : MediaType) : Conference × Option FsError :=
  if c.initialized then
    ({ c with tracks := c.tracks ++ [{ mediaType := mt, streams := [] }] }, none)
  else
    (c, some .NotInitialized)

/-- Modelled from the spec: `addParticipant()` fails with `NotInitialized`
before `create()`; otherwise it registers a fresh participant. -/
def addParticipant (c : Conference) : Conference × Option FsError :=
  if c.initialized then
    ({ c with participants := c.participants + 1 }, none)
  else
    (c, some .NotInitialized)

/-- Modelled from the spec: `start()` transitions the Conference toward
PLAYING; it is idempotent, and a Conference with zero tracks is valid and
`start()` is a no-op on it. -/
def startConference (c : Conference) : Conference :=
  if c.tracks.isEmpty then c else { c with lifecycle := .PLAYING }

/-! ## Identity metadata update (`sdes`, `src/example.py` lines 9-10) -/

/-- Modelled from the spec: identity metadata is a key-value mapping and
`set_value` writes one field into a fresh independent copy of the mapping
(copy-then-override, never aliasing the snapshot). -/
def setValue (m : List (String × String)) (k v : String) :
    List (String × String) :=
  (k, v) :: m.filter (fun kv => kv.1 != k)

/-- The identity update performed at setup (`src/example.py` line 10):
`sdes.copy().set_value("cname", argv1 + "@1.2.3.4")`. -/
def sdesUpdate (sdes : List (String × String)) (token : String) :
    List (String × String) :=
  setValue sdes "cname" (token ++ "@1.2.3.4")

theorem lookup_filter_key_ne (k k' : String) (h : k' ≠ k) :
    ∀ m : List (String × String),
      (m.filter (fun kv => kv.1 != k)).lookup k' = m.lookup k' := by
  intro m
  induction m with
  | nil => rfl
  | cons a t ih =>
      obtain ⟨a1, a2⟩ := a
      by_cases ha : a1 = k
      · subst ha
        have hk' : (k' == a1) = false := by simp [h]
        simp [List.filter_cons, List.lookup, hk', ih]
      · by_cases hk : k' = a1
        · simp [List.filter_cons, ha, List.lookup, hk]
        · have hk2 : (k' == a1) = false := by simp [hk]
          simp [List.filter_cons, ha, List.lookup, hk2, ih]

theorem lookup_setValue_ne (m : List (String × String)) (k v k' : String)
    (h : k' ≠ k) : (setValue m k v).lookup k' = m.lookup k' := by
  have hk : (k' == k) = false := by simp [h]
  simp only [setValue, List.lookup, hk]
  exact lookup_filter_key_ne k k' h m

/-! ## Concrete fixtures from the example script -/

/-- The codec from `src/example.py` lines 18-20. -/
def exampleCodec : Codec :=
  { payloadType := 96
    encodingName := "H263-1998"
    mediaType := .VIDEO
    clockRate := 90000 }

/-- The value held by `candidate2` after its overrides
(`src/example.py` lines 29-31). -/
def exampleCandidate2 : Candidate :=
  { exampleCandidate with port := 3443, component_id := .RTCP }

/-- A freshly created stream: no transmitter yet, the local capability
list holding the example codec, state INIT. -/
def initStream : Stream :=
  { direction := .BOTH
    transmitter := none
    localCodecs := [exampleCodec]
    remoteCodecs := []
    forcedCandidates := []
    state := .INIT }

/-- A stream already connected (for failure fixtures). -/
def connectedStream : Stream := { initStream with state := .CONNECTED }

/-- A conference on which `create()` has not run, with no tracks. -/
def uninitConference : Conference :=
  { initialized := false
    identity := []
    tracks := []
    participants := 0
    lifecycle := .NEW }

/-! ## Claim theorems -/

/-- Claim C1: over any serialized sequence of src-pad-added arrival
events delivered to a conference, the construction branch of
`_src_pad_added` executes on at most one event — the funnel (merge node)
and the xvimagesink (terminal consumer) are each constructed at most once
— and once any event has been handled, every later event observes the
already-created pool (the funnel flag stays set). -/
theorem funnel_constructed_at_most_once (evs : List PadEvent) :
    (runEvents initialPool evs).funnelConstructions ≤ 1 ∧
    (runEvents initialPool evs).sinkConstructions ≤ 1 ∧
    (evs ≠ [] → (runEvents initialPool evs).funnelBuilt = true) := by
  cases evs with
  | nil => exact ⟨by decide, by decide, fun hne => absurd rfl hne⟩
  | cons e t =>
      have h1 : src_pad_added initialPool e =
          { funnelBuilt := true
            funnelConstructions := 1
            sinkConstructions := 1
            links := [(e, 0)] } := by
        simp [src_pad_added, initialPool]
      obtain ⟨hb, hf, hs⟩ :=
        runEvents_of_built t (src_pad_added initialPool e) (by rw [h1])
      refine ⟨?_, ?_, fun _ => ?_⟩
      · exact le_of_eq (by rw [show runEvents initialPool (e :: t) =
          runEvents (src_pad_added initialPool e) t from rfl, hf, h1])
      · exact le_of_eq (by rw [show runEvents initialPool (e :: t) =
          runEvents (src_pad_added initialPool e) t from rfl, hs, h1])
      · exact hb

theorem funnel_constructed_at_most_once_witness :
    (runEvents initialPool
      [⟨"alice", "src_1_96_1"⟩, ⟨"bob", "src_1_96_2"⟩]).funnelConstructions ≤ 1 ∧
    (runEvents initialPool
      [⟨"alice", "src_1_96_1"⟩, ⟨"bob", "src_1_96_2"⟩]).funnelBuilt = true :=
  ⟨(funnel_constructed_at_most_once
      [⟨"alice", "src_1_96_1"⟩, ⟨"bob", "src_1_96_2"⟩]).1,
   (funnel_constructed_at_most_once
      [⟨"alice", "src_1_96_1"⟩, ⟨"bob", "src_1_96_2"⟩]).2.2 (by decide)⟩

/-- Claim C4: when two src-pad-added events fire in succession for two
distinct participants on the same track, afterwards exactly one shared
consumer (and one funnel) exists, and the two remote sources are linked
to distinct input pads of the funnel: the first gets request pad 0, the
second request pad 1. -/
theorem two_arrivals_one_shared_consumer (e1 e2 : PadEvent)
    (h : e1.participantCname ≠ e2.participantCname) :
    (runEvents initialPool [e1, e2]).sinkConstructions = 1 ∧
    (runEvents initialPool [e1, e2]).funnelConstructions = 1 ∧
    (runEvents initialPool [e1, e2]).links = [(e1, 0), (e2, 1)] ∧
    ((runEvents initialPool [e1, e2]).links.map Prod.snd).Nodup := by
  refine ⟨?_, ?_, ?_, ?_⟩ <;>
    simp [runEvents, List.foldl, src_pad_added, initialPool]

theorem two_arrivals_one_shared_consumer_witness :
    (runEvents initialPool
      [⟨"alice", "src_1_96_1"⟩, ⟨"bob", "src_1_96_2"⟩]).sinkConstructions = 1 ∧
    (runEvents initialPool
      [⟨"alice", "src_1_96_1"⟩, ⟨"bob", "src_1_96_2"⟩]).links =
      [(⟨"alice", "src_1_96_1"⟩, 0), (⟨"bob", "src_1_96_2"⟩, 1)] :=
  ⟨(two_arrivals_one_shared_consumer ⟨"alice", "src_1_96_1"⟩
      ⟨"bob", "src_1_96_2"⟩ (by decide)).1,
   (two_arrivals_one_shared_consumer ⟨"alice", "src_1_96_1"⟩
      ⟨"bob", "src_1_96_2"⟩ (by decide)).2.2.1⟩

/-- Claim C2: copying a candidate object and then overriding any single
field on the returned copy leaves the original object unchanged on the
heap — the copy is a fresh reference distinct from the source. -/
theorem candidate_copy_independent (h : CandHeap) (r : Nat) (u : FieldUpdate)
    (hr : r < h.length) :
    (copyCandidate h r).2 ≠ r ∧
    (setField (copyCandidate h r).1 (copyCandidate h r).2 u)[r]? = h[r]? := by
  rcases hE : h[r]? with _ | c
  · rw [List.getElem?_eq_none_iff] at hE
    omega
  · have hcopy : copyCandidate h r = (h ++ [c], h.length) := by
      simp [copyCandidate, hE]
    rw [hcopy]
    refine ⟨show h.length ≠ r by omega, ?_⟩
    show (setField (h ++ [c]) h.length u)[r]? = some c
    have hlen : (h ++ [c])[h.length]? = some c := by
      rw [List.getElem?_append_right (Nat.le_refl _)]
      simp
    simp only [setField, hlen]
    rw [List.getElem?_set_ne (by omega : h.length ≠ r),
      List.getElem?_append_left hr]
    exact hE

theorem candidate_copy_independent_witness :
    (copyCandidate exampleHeap 0).2 ≠ 0 ∧
    (setField (copyCandidate exampleHeap 0).1 (copyCandidate exampleHeap 0).2
      (.port 3443))[0]? = exampleHeap[0]? :=
  candidate_copy_independent exampleHeap 0 (.port 3443) (by decide)

/-- Claim C9: after `candidate2 = candidate.copy()` followed by
overriding only `port` and `component_id` on `candidate2`, every other
field of `candidate2` (ip, proto, type, ttl) equals the corresponding
field of the original candidate, the overridden fields hold the new
values, and the original candidate object is untouched. -/
theorem candidate2_preserves_other_fields :
    candidate2After.ip = exampleCandidate.ip ∧
    candidate2After.proto = exampleCandidate.proto ∧
    candidate2After.type = exampleCandidate.type ∧
    candidate2After.ttl = exampleCandidate.ttl ∧
    candidate2After.port = 3443 ∧
    candidate2After.component_id = .RTCP ∧
    candidateAfter = exampleCandidate := by decide

/-- Claim C3: `forceRemoteCandidates` called with a non-empty list
covering all required components (both RTP and RTCP) returns
successfully, and the stream's state equals CONNECTED immediately upon
return; the remote codec list is untouched, so no negotiation step
occurred. -/
theorem force_remote_candidates_connects (s : Stream) (cs : List Candidate)
    (hne : cs ≠ []) (hcc : componentComplete cs = true) :
    (force_remote_candidates s cs).2 = none ∧
    (force_remote_candidates s cs).1.state = .CONNECTED ∧
    (force_remote_candidates s cs).1.remoteCodecs = s.remoteCodecs := by
  have h1 : cs.isEmpty = false := by
    cases cs with
    | nil => exact absurd rfl hne
    | cons a t => rfl
  simp [force_remote_candidates, h1, hcc]

theorem force_remote_candidates_connects_witness :
    (force_remote_candidates initStream
      [exampleCandidate, exampleCandidate2]).2 = none ∧
    (force_remote_candidates initStream
      [exampleCandidate, exampleCandidate2]).1.state = .CONNECTED ∧
    (force_remote_candidates initStream
      [exampleCandidate, exampleCandidate2]).1.remoteCodecs =
      initStream.remoteCodecs :=
  force_remote_candidates_connects initStream
    [exampleCandidate, exampleCandidate2] (by decide) (by decide)

/-- Claim C5: `setRemoteCodecs([])` fails with `NoCodecMatch`; after the
failed call the stream's state is still INIT and no remote-codec list was
stored. -/
theorem set_remote_codecs_empty_fails (s : Stream) (hs : s.state = .INIT) :
    (set_remote_codecs s []).2 = some .NoCodecMatch ∧
    (set_remote_codecs s []).1.state = .INIT ∧
    (set_remote_codecs s []).1.remoteCodecs = s.remoteCodecs := by
  refine ⟨?_, ?_, ?_⟩ <;> simp [set_remote_codecs, negotiate, hs]

theorem set_remote_codecs_empty_fails_witness :
    (set_remote_codecs initStream []).2 = some .NoCodecMatch ∧
    (set_remote_codecs initStream []).1.state = .INIT ∧
    (set_remote_codecs initStream []).1.remoteCodecs =
      initStream.remoteCodecs :=
  set_remote_codecs_empty_fails initStream rfl

/-- Claim C6: every failing setup call among `setTransmitter`,
`setRemoteCodecs`, `forceRemoteCandidates`, `addTrack` and
`addParticipant` is all-or-nothing: whenever one of these operations
returns an error, the stream (respectively the whole conference, with its
tracks, participants, identity and lifecycle) is returned exactly as it
was before the call. -/
theorem setup_calls_all_or_nothing :
    (∀ (s : Stream) (k : String) (e : FsError),
      (set_transmitter s k).2 = some e → (set_transmitter s k).1 = s) ∧
    (∀ (s : Stream) (cs : List Codec) (e : FsError),
      (set_remote_codecs s cs).2 = some e → (set_remote_codecs s cs).1 = s) ∧
    (∀ (s : Stream) (cs : List Candidate) (e : FsError),
      (force_remote_candidates s cs).2 = some e →
        (force_remote_candidates s cs).1 = s) ∧
    (∀ (c : Conference) (mt : MediaType) (e : FsError),
      (addTrack c mt).2 = some e → (addTrack c mt).1 = c) ∧
    (∀ (c : Conference) (e : FsError),
      (addParticipant c).2 = some e → (addParticipant c).1 = c) := by
  refine ⟨?_, ?_, ?_, ?_, ?_⟩
  · intro s k e hE
    by_cases hc : s.state == .INIT && s.forcedCandidates.isEmpty
    · simp [set_transmitter, hc] at hE
    · simp [set_transmitter, hc]
  · intro s cs e hE
    cases hn : negotiate s.localCodecs cs with
    | none => simp [set_remote_codecs, hn]
    | some cd => simp [set_remote_codecs, hn] at hE
  · intro s cs e hE
    by_cases hc : (cs.isEmpty || !componentComplete cs) = true
    · simp [force_remote_candidates, hc]
    · simp [force_remote_candidates, hc] at hE
  · intro c mt e hE
    by_cases hc : c.initialized
    · simp [addTrack, hc] at hE
    · simp [addTrack, hc]
  · intro c e hE
    by_cases hc : c.initialized
    · simp [addParticipant, hc] at hE
    · simp [addParticipant, hc]

theorem setup_calls_all_or_nothing_witness :
    (set_transmitter connectedStream "rawudp").1 = connectedStream ∧
    (set_remote_codecs initStream []).1 = initStream ∧
    (force_remote_candidates initStream []).1 = initStream ∧
    (addTrack uninitConference .VIDEO).1 = uninitConference ∧
    (addParticipant uninitConference).1 = uninitConference :=
  ⟨setup_calls_all_or_nothing.1 connectedStream "rawudp"
      .InvalidState (by decide),
   setup_calls_all_or_nothing.2.1 initStream [] .NoCodecMatch (by decide),
   setup_calls_all_or_nothing.2.2.1 initStream []
      .InvalidCandidateSet (by decide),
   setup_calls_all_or_nothing.2.2.2.1 uninitConference .VIDEO
      .NotInitialized (by decide),
   setup_calls_all_or_nothing.2.2.2.2 uninitConference
      .NotInitialized (by decide)⟩

/-- Claim C7: calling `setTransmitter` on a stream after
`forceRemoteCandidates` has succeeded on it fails with `InvalidState`,
and the stream's transmitter kind after the failed call equals its
transmitter kind before the call. -/
theorem set_transmitter_after_forced_fails (s : Stream) (cs : List Candidate)
    (kind : String) (hok : (force_remote_candidates s cs).2 = none) :
    (set_transmitter (force_remote_candidates s cs).1 kind).2 =
      some .InvalidState ∧
    (set_transmitter (force_remote_candidates s cs).1 kind).1.transmitter =
      (force_remote_candidates s cs).1.transmitter := by
  by_cases hc : (cs.isEmpty || !componentComplete cs) = true
  · simp [force_remote_candidates, hc] at hok
  · have h1 : (force_remote_candidates s cs).1 =
        { s with forcedCandidates := cs, state := .CONNECTED } := by
      simp [force_remote_candidates, hc]
    rw [h1]
    simp [set_transmitter]

theorem set_transmitter_after_forced_fails_witness :
    (set_transmitter
      (force_remote_candidates initStream
        [exampleCandidate, exampleCandidate2]).1 "multicast").2 =
      some .InvalidState ∧
    (set_transmitter
      (force_remote_candidates initStream
        [exampleCandidate, exampleCandidate2]).1 "multicast").1.transmitter =
      (force_remote_candidates initStream
        [exampleCandidate, exampleCandidate2]).1.transmitter :=
  set_transmitter_after_forced_fails initStream
    [exampleCandidate, exampleCandidate2] "multicast" (by decide)

/-- Claim C8: `start()` is idempotent — starting a conference twice
yields the same conference (tracks and streams included) as starting it
once — and on a conference with zero tracks `start()` changes nothing. -/
theorem startConference_idempotent (c : Conference) :
    startConference (startConference c) = startConference c ∧
    (c.tracks = [] → startConference c = c) := by
  constructor
  · by_cases hc : c.tracks.isEmpty
    · simp [startConference, hc]
    · simp [startConference, hc]
  · intro h
    simp [startConference, h]

theorem startConference_idempotent_witness :
    startConference (startConference uninitConference) =
      startConference uninitConference ∧
    startConference uninitConference = uninitConference :=
  ⟨(startConference_idempotent uninitConference).1,
   (startConference_idempotent uninitConference).2 rfl⟩

/-- Claim C10: the identity update performed at setup changes only the
`cname` field of the conference's `sdes` identity metadata, setting it to
the caller-supplied token concatenated with `"@1.2.3.4"`, and leaves
every other identity field with the value it had before the update. -/
theorem sdesUpdate_changes_only_cname (sdes : List (String × String))
    (token : String) :
    (sdesUpdate sdes token).lookup "cname" = some (token ++ "@1.2.3.4") ∧
    ∀ k : String, k ≠ "cname" →
      (sdesUpdate sdes token).lookup k = sdes.lookup k := by
  constructor
  · simp [sdesUpdate, setValue, List.lookup]
  · intro k hk
    exact lookup_setValue_ne sdes "cname" (token ++ "@1.2.3.4") k hk

theorem sdesUpdate_changes_only_cname_witness :
    (sdesUpdate [("cname", "old"), ("note", "fs")] "alice").lookup "cname" =
      some ("alice" ++ "@1.2.3.4") ∧
    (sdesUpdate [("cname", "old"), ("note", "fs")] "alice").lookup "note" =
      some "fs" :=
  ⟨(sdesUpdate_changes_only_cname [("cname", "old"), ("note", "fs")]
      "alice").1,
   (sdesUpdate_changes_only_cname [("cname", "old"), ("note", "fs")]
      "alice").2 "note" (by decide)⟩

end FarstreamSpec
